import Mathlib

/-!
Verification of the `gl_lib` shader/program wrapper of RustCraft
(`src/gl_lib/src/shader.rs` and `src/gl_lib/src/program.rs`).

The OpenGL driver is modelled as an oracle: a structure of response values,
one field per driver query the Rust code performs.  Each wrapper function is
embedded as a Lean function from the oracle (and the function's Rust
arguments) to a pair `(trace, outcome)`, where `trace : List GLCall` records
every driver call issued, in program order, before the function returns (or
aborts), and `outcome` is the Rust return value: `ok`, `err` (the `Err`
branch of `Result`), or `abort` (a failed `assert_eq!`, which panics).

Machine integers: `GLuint`/`GLenum` (u32) values are modelled as `Nat`,
`GLint` (i32) values as `Int`.  No arithmetic is performed on them by the
source except the `status as GLboolean` truncation (modelled as `% 256`) and
`info_length - 1` (on `Int`).  `f32` values are never inspected or computed
with by the source, only passed through to the driver and to `Debug`
formatting, so they are modelled as opaque 32-bit patterns (`F32`) together
with formatting oracles standing for Rust's `Debug` implementations.
-/

/-- An `f32` value, modelled as its raw bit pattern.  The wrapper never
computes with floats, it only forwards them to the driver and to `Debug`
formatting. -/
structure F32 where
  bits : Nat
deriving DecidableEq

/-- A `cgmath::Matrix4<f32>` value (16 floats, passed to the driver as a
pointer by `set_matrix4f`), modelled as an opaque tuple of bit patterns. -/
structure Mat4 where
  entries : List F32
deriving DecidableEq

/-- One call into the OpenGL driver, as issued by the wrapper code.
Arguments record what the Rust code passes. -/
inductive GLCall where
  | getError
  | createShader (shaderType : Nat)
  | shaderSource (id : Nat) (source : String)
  | compileShader (id : Nat)
  | getShaderiv (id : Nat) (pname : Nat)
  | getShaderInfoLog (id : Nat) (bufSize : Int)
  | deleteShader (id : Nat)
  | createProgram
  | attachShader (pid : Nat) (sid : Nat)
  | linkProgram (pid : Nat)
  | detachShader (pid : Nat) (sid : Nat)
  | getProgramiv (pid : Nat) (pname : Nat)
  | getProgramInfoLog (pid : Nat) (bufSize : Int)
  | deleteProgram (pid : Nat)
  | useProgram (pid : Nat)
  | getUniformLocation (pid : Nat) (name : String)
  | uniform1f (loc : Int) (v : F32)
  | uniform1i (loc : Int) (v : Int)
  | uniform2f (loc : Int) (v0 : F32) (v1 : F32)
  | uniform3f (loc : Int) (v0 : F32) (v1 : F32) (v2 : F32)
  | uniform4f (loc : Int) (v0 : F32) (v1 : F32) (v2 : F32) (v3 : F32)
  | uniformMatrix4fv (loc : Int) (count : Int) (transpose : Nat) (m : Mat4)
deriving DecidableEq

/-- The result of running a wrapper function: `Ok`, `Err` (Rust's `Result`),
or a process abort from a failed `assert_eq!` (a panic). -/
inductive Outcome (α : Type) where
  | ok : α → Outcome α
  | err : String → Outcome α
  | abort : Outcome α
deriving DecidableEq

/-- True exactly on the `Err` constructor. -/
def Outcome.isErr {α : Type} : Outcome α → Bool
  | Outcome.err _ => true
  | _ => false

/-- `gl::NO_ERROR` -/
def glNO_ERROR : Nat := 0
/-- `gl::TRUE` (a `GLboolean`) -/
def glTRUE : Nat := 1
/-- `gl::FALSE` (a `GLboolean`) -/
def glFALSE : Nat := 0
/-- `gl::COMPILE_STATUS` -/
def glCOMPILE_STATUS : Nat := 0x8B81
/-- `gl::LINK_STATUS` -/
def glLINK_STATUS : Nat := 0x8B82
/-- `gl::INFO_LOG_LENGTH` -/
def glINFO_LOG_LENGTH : Nat := 0x8B84

/-- The Rust cast `status as GLboolean`: an `i32` truncated to its low byte
(`GLboolean` is `u8`); on the two's-complement bit pattern this is the value
modulo 256. -/
def asGLboolean (status : Int) : Nat := (status % 256).toNat

/-- Validation and decoding exactly as Rust's `String::from_utf8` performs
it: standard UTF-8 (RFC 3629) with overlong forms, surrogates and
code points above `0x10FFFF` rejected.  Returns the decoded characters, or
`none` when the bytes are not valid UTF-8. -/
def utf8Decode : List Nat → Option (List Char)
  | [] => some []
  | b :: bs =>
    if b < 0x80 then
      (utf8Decode bs).map (fun cs => Char.ofNat b :: cs)
    else if 0xC2 ≤ b ∧ b ≤ 0xDF then
      match bs with
      | c1 :: bs1 =>
        if 0x80 ≤ c1 ∧ c1 ≤ 0xBF then
          (utf8Decode bs1).map
            (fun cs => Char.ofNat ((b - 0xC0) * 64 + (c1 - 0x80)) :: cs)
        else none
      | [] => none
    else if 0xE0 ≤ b ∧ b ≤ 0xEF then
      match bs with
      | c1 :: c2 :: bs2 =>
        if (if b = 0xE0 then 0xA0 ≤ c1 ∧ c1 ≤ 0xBF
            else if b = 0xED then 0x80 ≤ c1 ∧ c1 ≤ 0x9F
            else 0x80 ≤ c1 ∧ c1 ≤ 0xBF) ∧ 0x80 ≤ c2 ∧ c2 ≤ 0xBF then
          (utf8Decode bs2).map
            (fun cs =>
              Char.ofNat ((b - 0xE0) * 4096 + (c1 - 0x80) * 64 + (c2 - 0x80)) :: cs)
        else none
      | _ => none
    else if 0xF0 ≤ b ∧ b ≤ 0xF4 then
      match bs with
      | c1 :: c2 :: c3 :: bs3 =>
        if (if b = 0xF0 then 0x90 ≤ c1 ∧ c1 ≤ 0xBF
            else if b = 0xF4 then 0x80 ≤ c1 ∧ c1 ≤ 0x8F
            else 0x80 ≤ c1 ∧ c1 ≤ 0xBF) ∧ (0x80 ≤ c2 ∧ c2 ≤ 0xBF) ∧
            0x80 ≤ c3 ∧ c3 ≤ 0xBF then
          (utf8Decode bs3).map
            (fun cs =>
              Char.ofNat ((b - 0xF0) * 262144 + (c1 - 0x80) * 4096 +
                (c2 - 0x80) * 64 + (c3 - 0x80)) :: cs)
        else none
      | _ => none
    else none

/-- The contents of the `info_log` vector at the moment it is handed to
`String::from_utf8`, in both `create_shader` and `Program::new`.  The Rust
code builds it as `Vec::with_capacity((info_length - 1) as usize)` — a vector
of length 0 — and then lets `glGet{Shader,Program}InfoLog` write through
`info_log.as_mut_ptr()` into the spare capacity.  The vector's length is
never updated (no `set_len`), so the `Vec<u8>` consumed by
`String::from_utf8` is empty regardless of what the driver wrote. -/
def infoLogVecContents : List Nat := []

/-- The `ShaderType` enum of `shader.rs`. -/
inductive ShaderType where
  | Vertex
  | TessControl
  | TessEvaluation
  | Geometry
  | Fragment
deriving DecidableEq

/-- `ShaderType::to_opengl`: the stage constant passed to
`glCreateShader`. -/
def ShaderType.to_opengl : ShaderType → Nat
  | ShaderType.Vertex => 0x8B31         -- gl::VERTEX_SHADER
  | ShaderType.TessControl => 0x8E88    -- gl::TESS_CONTROL_SHADER
  | ShaderType.TessEvaluation => 0x8E87 -- gl::TESS_EVALUATION_SHADER
  | ShaderType.Geometry => 0x8DD9       -- gl::GEOMETRY_SHADER
  | ShaderType.Fragment => 0x8B30       -- gl::FRAGMENT_SHADER

/-- The `fmt::Display` implementation for `ShaderType`. -/
def ShaderType.display : ShaderType → String
  | ShaderType.Vertex => "VERTEX_SHADER"
  | ShaderType.TessControl => "TESS_CONTROL_SHADER"
  | ShaderType.TessEvaluation => "TESS_EVALUATION_SHADER"
  | ShaderType.Geometry => "GEOMETRY_SHADER"
  | ShaderType.Fragment => "FRAGMENT_SHADER"

/-- Driver oracle for one `create_shader` run: one field per driver query
the function performs. `errAfterSuccess`, `errAfterNoLog` and `errAfterLog`
are the values `glGetError` returns at the three `assert_eq!` sites (one per
return path); `infoLogBytes` is what the driver writes through the buffer
pointer in `glGetShaderInfoLog`. -/
structure ShaderDriver where
  createdId : Nat
  compileStatus : Int
  errAfterSuccess : Nat
  infoLogLength : Int
  errAfterNoLog : Nat
  infoLogBytes : List Nat
  errAfterLog : Nat
deriving DecidableEq

/-- The calls `create_shader` issues up to and including the
`COMPILE_STATUS` query, common to every path on which the driver produced a
shader object. -/
def shaderCallsHead (id : Nat) (source : String) (shader_type : ShaderType) :
    List GLCall :=
  [GLCall.getError, GLCall.createShader shader_type.to_opengl,
   GLCall.shaderSource id source, GLCall.compileShader id,
   GLCall.getShaderiv id glCOMPILE_STATUS]

/-- `create_shader` of `shader.rs` (lines 170–234): clear the error flag,
create the shader object, upload the source, compile, and branch on
`COMPILE_STATUS`; on failure query `INFO_LOG_LENGTH` and either report "no
info log available" or read the log, delete the shader, and build the error
message from `String::from_utf8` of the log vector (whose contents are
`infoLogVecContents`, see there).  Each `assert_eq!(gl::NO_ERROR,
gl::GetError())` aborts when the driver reports a non-clean flag. -/
def create_shader (d : ShaderDriver) (source : String)
    (shader_type : ShaderType) : List GLCall × Outcome Nat :=
  if d.createdId = 0 then
    ([GLCall.getError, GLCall.createShader shader_type.to_opengl],
     Outcome.err "OpenGL failed to create shader object")
  else if asGLboolean d.compileStatus = glTRUE then
    (shaderCallsHead d.createdId source shader_type ++ [GLCall.getError],
     if d.errAfterSuccess = glNO_ERROR then Outcome.ok d.createdId
     else Outcome.abort)
  else if d.infoLogLength = 0 then
    (shaderCallsHead d.createdId source shader_type ++
       [GLCall.getShaderiv d.createdId glINFO_LOG_LENGTH,
        GLCall.deleteShader d.createdId, GLCall.getError],
     if d.errAfterNoLog = glNO_ERROR then
       Outcome.err ("Failed to compile " ++ shader_type.display ++
         ", no info log available.")
     else Outcome.abort)
  else
    (shaderCallsHead d.createdId source shader_type ++
       [GLCall.getShaderiv d.createdId glINFO_LOG_LENGTH,
        GLCall.getShaderInfoLog d.createdId (d.infoLogLength - 1),
        GLCall.deleteShader d.createdId, GLCall.getError],
     if d.errAfterLog = glNO_ERROR then
       match utf8Decode infoLogVecContents with
       | some chars =>
         Outcome.err ("Failed to compile " ++ shader_type.display ++ ": " ++
           String.mk chars)
       | none =>
         Outcome.err ("Failed to compile " ++ shader_type.display ++
           ", info log cannot be parsed to UTF-8.")
     else Outcome.abort)

/-- The `VertexShader` struct: one driver identifier. -/
structure VertexShader where
  id : Nat
deriving DecidableEq

/-- The `TessControlShader` struct. -/
structure TessControlShader where
  id : Nat
deriving DecidableEq

/-- The `TessEvaluationShader` struct. -/
structure TessEvaluationShader where
  id : Nat
deriving DecidableEq

/-- The `GeometryShader` struct. -/
structure GeometryShader where
  id : Nat
deriving DecidableEq

/-- The `FragmentShader` struct. -/
structure FragmentShader where
  id : Nat
deriving DecidableEq

/-- `<VertexShader as Shader>::from_cstr`: run `create_shader` with
`ShaderType::Vertex` and wrap the identifier on success. -/
def VertexShader.from_cstr (d : ShaderDriver) (source : String) :
    List GLCall × Outcome VertexShader :=
  match create_shader d source ShaderType.Vertex with
  | (t, Outcome.ok id) => (t, Outcome.ok (VertexShader.mk id))
  | (t, Outcome.err string) => (t, Outcome.err string)
  | (t, Outcome.abort) => (t, Outcome.abort)

/-- `<TessControlShader as Shader>::from_cstr`. -/
def TessControlShader.from_cstr (d : ShaderDriver) (source : String) :
    List GLCall × Outcome TessControlShader :=
  match create_shader d source ShaderType.TessControl with
  | (t, Outcome.ok id) => (t, Outcome.ok (TessControlShader.mk id))
  | (t, Outcome.err string) => (t, Outcome.err string)
  | (t, Outcome.abort) => (t, Outcome.abort)

/-- `<TessEvaluationShader as Shader>::from_cstr`. -/
def TessEvaluationShader.from_cstr (d : ShaderDriver) (source : String) :
    List GLCall × Outcome TessEvaluationShader :=
  match create_shader d source ShaderType.TessEvaluation with
  | (t, Outcome.ok id) => (t, Outcome.ok (TessEvaluationShader.mk id))
  | (t, Outcome.err string) => (t, Outcome.err string)
  | (t, Outcome.abort) => (t, Outcome.abort)

/-- `<GeometryShader as Shader>::from_cstr`. -/
def GeometryShader.from_cstr (d : ShaderDriver) (source : String) :
    List GLCall × Outcome GeometryShader :=
  match create_shader d source ShaderType.Geometry with
  | (t, Outcome.ok id) => (t, Outcome.ok (GeometryShader.mk id))
  | (t, Outcome.err string) => (t, Outcome.err string)
  | (t, Outcome.abort) => (t, Outcome.abort)

/-- `<FragmentShader as Shader>::from_cstr`. -/
def FragmentShader.from_cstr (d : ShaderDriver) (source : String) :
    List GLCall × Outcome FragmentShader :=
  match create_shader d source ShaderType.Fragment with
  | (t, Outcome.ok id) => (t, Outcome.ok (FragmentShader.mk id))
  | (t, Outcome.err string) => (t, Outcome.err string)
  | (t, Outcome.abort) => (t, Outcome.abort)

/-- `VertexShader::from_id`: wraps the given identifier with no driver call
and no validation (the safety contract is left to the caller). -/
def VertexShader.from_id (id : Nat) : VertexShader := VertexShader.mk id

/-- `TessControlShader::from_id`. -/
def TessControlShader.from_id (id : Nat) : TessControlShader :=
  TessControlShader.mk id

/-- `TessEvaluationShader::from_id`. -/
def TessEvaluationShader.from_id (id : Nat) : TessEvaluationShader :=
  TessEvaluationShader.mk id

/-- `GeometryShader::from_id`. -/
def GeometryShader.from_id (id : Nat) : GeometryShader := GeometryShader.mk id

/-- `FragmentShader::from_id`. -/
def FragmentShader.from_id (id : Nat) : FragmentShader := FragmentShader.mk id

/-- `VertexShader::get_id`: returns the stored identifier, no driver call. -/
def VertexShader.get_id (s : VertexShader) : Nat := s.id

/-- `TessControlShader::get_id`. -/
def TessControlShader.get_id (s : TessControlShader) : Nat := s.id

/-- `TessEvaluationShader::get_id`. -/
def TessEvaluationShader.get_id (s : TessEvaluationShader) : Nat := s.id

/-- `GeometryShader::get_id`. -/
def GeometryShader.get_id (s : GeometryShader) : Nat := s.id

/-- `FragmentShader::get_id`. -/
def FragmentShader.get_id (s : FragmentShader) : Nat := s.id

/-- `impl Drop for VertexShader`: the driver calls issued when the handle is
dropped — unconditionally one `glDeleteShader` of the stored identifier. -/
def VertexShader.drop (s : VertexShader) : List GLCall :=
  [GLCall.deleteShader s.id]

/-- `impl Drop for TessControlShader`. -/
def TessControlShader.drop (s : TessControlShader) : List GLCall :=
  [GLCall.deleteShader s.id]

/-- `impl Drop for TessEvaluationShader`. -/
def TessEvaluationShader.drop (s : TessEvaluationShader) : List GLCall :=
  [GLCall.deleteShader s.id]

/-- `impl Drop for GeometryShader`. -/
def GeometryShader.drop (s : GeometryShader) : List GLCall :=
  [GLCall.deleteShader s.id]

/-- `impl Drop for FragmentShader`. -/
def FragmentShader.drop (s : FragmentShader) : List GLCall :=
  [GLCall.deleteShader s.id]

/-- The `Program` struct of `program.rs`: one driver identifier. -/
structure Program where
  id : Nat
deriving DecidableEq

/-- Driver oracle for one `Program::new` run, one field per driver query
(same shape as `ShaderDriver`, with the link status in place of the compile
status). -/
structure ProgramDriver where
  createdId : Nat
  linkStatus : Int
  errAfterSuccess : Nat
  infoLogLength : Int
  errAfterNoLog : Nat
  infoLogBytes : List Nat
  errAfterLog : Nat
deriving DecidableEq

/-- The `glAttachShader` call of the `if let Some(geometry_shader)` block in
`Program::new` (empty when no geometry shader is supplied). -/
def optAttach (pid : Nat) : Option GeometryShader → List GLCall
  | some g => [GLCall.attachShader pid g.id]
  | none => []

/-- The `glDetachShader` call of the second `if let Some(geometry_shader)`
block in `Program::new`. -/
def optDetach (pid : Nat) : Option GeometryShader → List GLCall
  | some g => [GLCall.detachShader pid g.id]
  | none => []

/-- The calls `Program::new` issues up to and including the `LINK_STATUS`
query, common to every path on which the driver produced a program object:
attach vertex, fragment and optional geometry shader, link, then detach all
attached shaders (in the same order), then query the link status. -/
def programCallsHead (pid : Nat) (vs : VertexShader) (fs : FragmentShader)
    (gs : Option GeometryShader) : List GLCall :=
  [GLCall.getError, GLCall.createProgram,
   GLCall.attachShader pid vs.id, GLCall.attachShader pid fs.id] ++
  optAttach pid gs ++
  [GLCall.linkProgram pid,
   GLCall.detachShader pid vs.id, GLCall.detachShader pid fs.id] ++
  optDetach pid gs ++
  [GLCall.getProgramiv pid glLINK_STATUS]

/-- `Program::new` of `program.rs` (lines 14–85): clear the error flag,
create the program object, attach the vertex and fragment shaders (and the
geometry shader when supplied), link, detach all of them regardless of
outcome, and branch on `LINK_STATUS`; on failure query `INFO_LOG_LENGTH`,
delete the program object and build the error message from
`String::from_utf8` of the log vector (contents `infoLogVecContents`, see
there).  The `assert_eq!` sites abort on a non-clean error flag. -/
def Program.new (d : ProgramDriver) (vertex_shader : VertexShader)
    (fragment_shader : FragmentShader)
    (geometry_shader : Option GeometryShader) :
    List GLCall × Outcome Program :=
  if d.createdId = 0 then
    ([GLCall.getError, GLCall.createProgram],
     Outcome.err "OpenGL failed to create program object.")
  else if asGLboolean d.linkStatus = glTRUE then
    (programCallsHead d.createdId vertex_shader fragment_shader
       geometry_shader ++ [GLCall.getError],
     if d.errAfterSuccess = glNO_ERROR then Outcome.ok (Program.mk d.createdId)
     else Outcome.abort)
  else if d.infoLogLength = 0 then
    (programCallsHead d.createdId vertex_shader fragment_shader
       geometry_shader ++
       [GLCall.getProgramiv d.createdId glINFO_LOG_LENGTH,
        GLCall.deleteProgram d.createdId, GLCall.getError],
     if d.errAfterNoLog = glNO_ERROR then
       Outcome.err "Failed to link program, no info log available."
     else Outcome.abort)
  else
    (programCallsHead d.createdId vertex_shader fragment_shader
       geometry_shader ++
       [GLCall.getProgramiv d.createdId glINFO_LOG_LENGTH,
        GLCall.getProgramInfoLog d.createdId (d.infoLogLength - 1),
        GLCall.deleteProgram d.createdId, GLCall.getError],
     if d.errAfterLog = glNO_ERROR then
       match utf8Decode infoLogVecContents with
       | some chars =>
         Outcome.err ("Failed to link program: " ++ String.mk chars)
       | none =>
         Outcome.err "Failed to link program, info log cannot be parsed to UTF-8."
     else Outcome.abort)

/-- `Program::use_program`: bind this program, no return value. -/
def Program.use_program (p : Program) : List GLCall :=
  [GLCall.useProgram p.id]

/-- `Program::unset_program`: bind program 0. -/
def Program.unset_program : List GLCall :=
  [GLCall.useProgram 0]

/-- `Program::get_id`: returns the stored identifier, no driver call. -/
def Program.get_id (p : Program) : Nat := p.id

/-- Driver oracle for one uniform-setter run: the location
`glGetUniformLocation` reports for the queried name, and the value
`glGetError` returns when re-read after the upload call (the first
`glGetError` of the setter only clears the flag; its result is discarded by
the source). -/
structure UniformDriver where
  location : Int
  errAfter : Nat
deriving DecidableEq

/-- `Program::get_location`: query the location of `name`; the driver's `-1`
sentinel becomes an invalid-name error.  `dbgName` stands for Rust's `Debug`
formatting of the `&CStr` argument. -/
def Program.get_location (p : Program) (d : UniformDriver)
    (dbgName : String → String) (name : String) :
    List GLCall × Outcome Int :=
  ([GLCall.getUniformLocation p.id name],
   if d.location = -1 then
     Outcome.err ("Invalid uniform name: " ++ dbgName name)
   else Outcome.ok d.location)

/-- `Program::set_1f`: resolve the location (propagating its error with the
`?` operator), clear the error flag, upload with `glUniform1f`, re-read the
flag; a non-clean flag becomes an invalid-value error.  `dbgF32` stands for
Rust's `Debug` formatting of the `f32` value. -/
def Program.set_1f (p : Program) (d : UniformDriver)
    (dbgName : String → String) (dbgF32 : F32 → String)
    (name : String) (value : F32) : List GLCall × Outcome Unit :=
  match p.get_location d dbgName name with
  | (t, Outcome.err e) => (t, Outcome.err e)
  | (t, Outcome.abort) => (t, Outcome.abort)
  | (t, Outcome.ok location) =>
    (t ++ [GLCall.getError, GLCall.uniform1f location value, GLCall.getError],
     if d.errAfter = glNO_ERROR then Outcome.ok ()
     else Outcome.err ("Invalid uniform value: " ++ dbgF32 value))

/-- `Program::set_1i`: as `set_1f` with `glUniform1i`; the `Debug` format of
an `i32` is its decimal representation. -/
def Program.set_1i (p : Program) (d : UniformDriver)
    (dbgName : String → String) (name : String) (value : Int) :
    List GLCall × Outcome Unit :=
  match p.get_location d dbgName name with
  | (t, Outcome.err e) => (t, Outcome.err e)
  | (t, Outcome.abort) => (t, Outcome.abort)
  | (t, Outcome.ok location) =>
    (t ++ [GLCall.getError, GLCall.uniform1i location value, GLCall.getError],
     if d.errAfter = glNO_ERROR then Outcome.ok ()
     else Outcome.err ("Invalid uniform value: " ++ toString value))

/-- `Program::set_2f`: as `set_1f` with `glUniform2f` on the two array
entries; `dbgArr2` stands for the `Debug` formatting of `&[f32; 2]`. -/
def Program.set_2f (p : Program) (d : UniformDriver)
    (dbgName : String → String) (dbgArr2 : F32 × F32 → String)
    (name : String) (value : F32 × F32) : List GLCall × Outcome Unit :=
  match p.get_location d dbgName name with
  | (t, Outcome.err e) => (t, Outcome.err e)
  | (t, Outcome.abort) => (t, Outcome.abort)
  | (t, Outcome.ok location) =>
    (t ++ [GLCall.getError, GLCall.uniform2f location value.1 value.2,
       GLCall.getError],
     if d.errAfter = glNO_ERROR then Outcome.ok ()
     else Outcome.err ("Invalid uniform value: " ++ dbgArr2 value))

/-- `Program::set_3f`: as `set_1f` with `glUniform3f`. -/
def Program.set_3f (p : Program) (d : UniformDriver)
    (dbgName : String → String) (dbgArr3 : F32 × F32 × F32 → String)
    (name : String) (value : F32 × F32 × F32) : List GLCall × Outcome Unit :=
  match p.get_location d dbgName name with
  | (t, Outcome.err e) => (t, Outcome.err e)
  | (t, Outcome.abort) => (t, Outcome.abort)
  | (t, Outcome.ok location) =>
    (t ++ [GLCall.getError,
       GLCall.uniform3f location value.1 value.2.1 value.2.2,
       GLCall.getError],
     if d.errAfter = glNO_ERROR then Outcome.ok ()
     else Outcome.err ("Invalid uniform value: " ++ dbgArr3 value))

/-- `Program::set_4f`: as `set_1f` with `glUniform4f`. -/
def Program.set_4f (p : Program) (d : UniformDriver)
    (dbgName : String → String) (dbgArr4 : F32 × F32 × F32 × F32 → String)
    (name : String) (value : F32 × F32 × F32 × F32) :
    List GLCall × Outcome Unit :=
  match p.get_location d dbgName name with
  | (t, Outcome.err e) => (t, Outcome.err e)
  | (t, Outcome.abort) => (t, Outcome.abort)
  | (t, Outcome.ok location) =>
    (t ++ [GLCall.getError,
       GLCall.uniform4f location value.1 value.2.1 value.2.2.1 value.2.2.2,
       GLCall.getError],
     if d.errAfter = glNO_ERROR then Outcome.ok ()
     else Outcome.err ("Invalid uniform value: " ++ dbgArr4 value))

/-- `Program::set_matrix4f`: as `set_1f` with `glUniformMatrix4fv` (count 1,
transpose `gl::FALSE`, the matrix passed by pointer). -/
def Program.set_matrix4f (p : Program) (d : UniformDriver)
    (dbgName : String → String) (dbgMat : Mat4 → String)
    (name : String) (value : Mat4) : List GLCall × Outcome Unit :=
  match p.get_location d dbgName name with
  | (t, Outcome.err e) => (t, Outcome.err e)
  | (t, Outcome.abort) => (t, Outcome.abort)
  | (t, Outcome.ok location) =>
    (t ++ [GLCall.getError,
       GLCall.uniformMatrix4fv location 1 glFALSE value,
       GLCall.getError],
     if d.errAfter = glNO_ERROR then Outcome.ok ()
     else Outcome.err ("Invalid uniform value: " ++ dbgMat value))

/-- `impl Drop for Program`: unconditionally one `glDeleteProgram` of the
stored identifier. -/
def Program.drop (p : Program) : List GLCall :=
  [GLCall.deleteProgram p.id]

/-- True on the six typed uniform-upload calls, false on every other driver
call. -/
def isUpload : GLCall → Bool
  | GLCall.uniform1f _ _ => true
  | GLCall.uniform1i _ _ => true
  | GLCall.uniform2f _ _ _ => true
  | GLCall.uniform3f _ _ _ _ => true
  | GLCall.uniform4f _ _ _ _ _ => true
  | GLCall.uniformMatrix4fv _ _ _ _ => true
  | _ => false

/-- The behaviour every uniform setter must exhibit on one run `run` with
upload call `upload`: on the `-1` sentinel, the invalid-name error and no
upload call in the trace; otherwise the exact four-call trace
(location query, error-flag clear, upload, error-flag re-read), success
exactly on a clean flag, and the invalid-value error on a non-clean one. -/
def SetterContract (d : UniformDriver) (p : Program) (name : String)
    (invalidNameMsg invalidValueMsg : String) (upload : GLCall)
    (run : List GLCall × Outcome Unit) : Prop :=
  (d.location = -1 →
    run.2 = Outcome.err invalidNameMsg ∧ ∀ c ∈ run.1, isUpload c = false) ∧
  (d.location ≠ -1 →
    run.1 = [GLCall.getUniformLocation p.id name, GLCall.getError, upload,
      GLCall.getError] ∧
    (run.2 = Outcome.ok () ↔ d.errAfter = glNO_ERROR) ∧
    (d.errAfter ≠ glNO_ERROR → run.2 = Outcome.err invalidValueMsg))

/-- Apply a function to the `ok` payload of a `(trace, outcome)` pair,
leaving the trace and the other outcomes unchanged. -/
def mapPair {α β : Type} (f : α → β) :
    List GLCall × Outcome α → List GLCall × Outcome β
  | (t, Outcome.ok a) => (t, Outcome.ok (f a))
  | (t, Outcome.err e) => (t, Outcome.err e)
  | (t, Outcome.abort) => (t, Outcome.abort)

lemma create_shader_ok_id (d : ShaderDriver) (source : String)
    (shader_type : ShaderType) (i : Nat)
    (h : (create_shader d source shader_type).2 = Outcome.ok i) :
    i = d.createdId ∧ d.createdId ≠ 0 := by
  unfold create_shader at h
  split_ifs at h <;> cases hu : utf8Decode infoLogVecContents <;> simp_all

/-- C10: for every identifier `x` and every shader stage type,
`get_id (from_id x) = x`, and `Program::get_id` returns exactly the stored
identifier; these constructors and accessors are pure field moves
(`from_id`, `get_id` and `Program::get_id` issue no driver calls in the
source), so the round trip is the identity on identifiers. -/
theorem C10_id_round_trip (x : Nat) (p : Program) :
    VertexShader.get_id (VertexShader.from_id x) = x ∧
    TessControlShader.get_id (TessControlShader.from_id x) = x ∧
    TessEvaluationShader.get_id (TessEvaluationShader.from_id x) = x ∧
    GeometryShader.get_id (GeometryShader.from_id x) = x ∧
    FragmentShader.get_id (FragmentShader.from_id x) = x ∧
    Program.get_id p = p.id := by
  exact ⟨rfl, rfl, rfl, rfl, rfl, rfl⟩

/-- C8: dropping any of the five shader handle types or a `Program` issues
exactly one delete call — the singleton trace `[deleteShader id]`
(resp. `[deleteProgram id]`) with the stored identifier — unconditionally,
so a single handle's lifetime ends with exactly one delete of its
identifier. -/
theorem C8_drop_single_delete (v : VertexShader) (tc : TessControlShader)
    (te : TessEvaluationShader) (g : GeometryShader) (f : FragmentShader)
    (p : Program) :
    VertexShader.drop v = [GLCall.deleteShader v.id] ∧
    TessControlShader.drop tc = [GLCall.deleteShader tc.id] ∧
    TessEvaluationShader.drop te = [GLCall.deleteShader te.id] ∧
    GeometryShader.drop g = [GLCall.deleteShader g.id] ∧
    FragmentShader.drop f = [GLCall.deleteShader f.id] ∧
    Program.drop p = [GLCall.deleteProgram p.id] := by
  exact ⟨rfl, rfl, rfl, rfl, rfl, rfl⟩

/-- C9: every stage variant's `from_cstr` equals the shared routine
`create_shader` applied to that variant's stage constant with the resulting
identifier wrapped (`mapPair`), for every driver behaviour and source
string; the five stage constants passed to the driver are pairwise
distinct; and the five destructors issue the same delete call on the same
identifier. -/
theorem C9_stage_uniformity (d : ShaderDriver) (source : String) (i : Nat) :
    VertexShader.from_cstr d source =
      mapPair VertexShader.mk (create_shader d source ShaderType.Vertex) ∧
    TessControlShader.from_cstr d source =
      mapPair TessControlShader.mk
        (create_shader d source ShaderType.TessControl) ∧
    TessEvaluationShader.from_cstr d source =
      mapPair TessEvaluationShader.mk
        (create_shader d source ShaderType.TessEvaluation) ∧
    GeometryShader.from_cstr d source =
      mapPair GeometryShader.mk (create_shader d source ShaderType.Geometry) ∧
    FragmentShader.from_cstr d source =
      mapPair FragmentShader.mk (create_shader d source ShaderType.Fragment) ∧
    (List.map ShaderType.to_opengl
      [ShaderType.Vertex, ShaderType.TessControl, ShaderType.TessEvaluation,
       ShaderType.Geometry, ShaderType.Fragment]).Nodup ∧
    VertexShader.drop (VertexShader.mk i) =
      TessControlShader.drop (TessControlShader.mk i) ∧
    VertexShader.drop (VertexShader.mk i) =
      TessEvaluationShader.drop (TessEvaluationShader.mk i) ∧
    VertexShader.drop (VertexShader.mk i) =
      GeometryShader.drop (GeometryShader.mk i) ∧
    VertexShader.drop (VertexShader.mk i) =
      FragmentShader.drop (FragmentShader.mk i) := by
  refine ⟨?_, ?_, ?_, ?_, ?_, by decide, rfl, rfl, rfl, rfl⟩ <;>
  · simp only [VertexShader.from_cstr, TessControlShader.from_cstr,
      TessEvaluationShader.from_cstr, GeometryShader.from_cstr,
      FragmentShader.from_cstr, mapPair]
    rcases create_shader d source _ with ⟨t, o⟩
    cases o <;> rfl

/-- Concrete driver behaviour exhibiting the info-log bug: the compile
fails, the driver reports a 6-byte info log whose bytes are the valid UTF-8
text "error", and the error flag stays clean. -/
def infoLogBugDriver : ShaderDriver :=
  ShaderDriver.mk 1 0 0 6 0 [101, 114, 114, 111, 114] 0

/-- C1 fails on the code: with a failing compile, a non-zero reported
info-log length and driver log bytes that are the valid UTF-8 text "error",
`create_shader` returns the message with an empty diagnostic — the info-log
text is never captured, because `Vec::with_capacity` plus the raw-pointer
write leaves the vector's length 0 (see `infoLogVecContents`).  The spec's
intent (build the message from the log) is clear, so this is a bug in the
code, not in the claim. -/
theorem C1_info_log_code_bug :
    (VertexShader.from_cstr infoLogBugDriver "bad").2 =
      Outcome.err "Failed to compile VERTEX_SHADER: " ∧
    utf8Decode infoLogBugDriver.infoLogBytes = some (String.toList "error") ∧
    ¬ (String.toList "error" <:+:
        String.toList "Failed to compile VERTEX_SHADER: ") := by
  refine ⟨by decide, by decide, by decide⟩

/-- C6 as stated is false: `from_id` wraps any identifier with no driver
call and no validation, so the two live handles `from_id 7` and `from_id 7`
hold the same identifier — their identifier list has a repeat. -/
theorem C6_counterexample :
    ¬ (List.map VertexShader.get_id
      [VertexShader.from_id 7, VertexShader.from_id 7]).Nodup := by
  decide

lemma mapPair_ok_inv {α β : Type} (f : α → β) (x : List GLCall × Outcome α)
    (b : β) (h : (mapPair f x).2 = Outcome.ok b) :
    ∃ a, x.2 = Outcome.ok a ∧ b = f a := by
  rcases x with ⟨t, o⟩
  cases o <;> simp_all [mapPair]

lemma vertex_from_cstr_eq (d : ShaderDriver) (s : String) :
    VertexShader.from_cstr d s =
      mapPair VertexShader.mk (create_shader d s ShaderType.Vertex) := by
  simp only [VertexShader.from_cstr, mapPair]
  rcases create_shader d s ShaderType.Vertex with ⟨t, o⟩
  cases o <;> rfl

lemma tessControl_from_cstr_eq (d : ShaderDriver) (s : String) :
    TessControlShader.from_cstr d s =
      mapPair TessControlShader.mk (create_shader d s ShaderType.TessControl) := by
  simp only [TessControlShader.from_cstr, mapPair]
  rcases create_shader d s ShaderType.TessControl with ⟨t, o⟩
  cases o <;> rfl

lemma tessEvaluation_from_cstr_eq (d : ShaderDriver) (s : String) :
    TessEvaluationShader.from_cstr d s =
      mapPair TessEvaluationShader.mk
        (create_shader d s ShaderType.TessEvaluation) := by
  simp only [TessEvaluationShader.from_cstr, mapPair]
  rcases create_shader d s ShaderType.TessEvaluation with ⟨t, o⟩
  cases o <;> rfl

lemma geometry_from_cstr_eq (d : ShaderDriver) (s : String) :
    GeometryShader.from_cstr d s =
      mapPair GeometryShader.mk (create_shader d s ShaderType.Geometry) := by
  simp only [GeometryShader.from_cstr, mapPair]
  rcases create_shader d s ShaderType.Geometry with ⟨t, o⟩
  cases o <;> rfl

lemma fragment_from_cstr_eq (d : ShaderDriver) (s : String) :
    FragmentShader.from_cstr d s =
      mapPair FragmentShader.mk (create_shader d s ShaderType.Fragment) := by
  simp only [FragmentShader.from_cstr, mapPair]
  rcases create_shader d s ShaderType.Fragment with ⟨t, o⟩
  cases o <;> rfl

/-- C6 amended: for every shader stage type, a successful `from_cstr`
returns a handle whose identifier is the driver-issued identifier and is
non-zero; and the identifiers of any two handles obtained from successful
runs of the shared compilation routine are distinct whenever the driver
issued distinct identifiers.  The no-aliasing part of the original claim
does not extend to `from_id`, which wraps an arbitrary identifier without
validation (see the counterexample). -/
theorem C6_live_handle_ids (d d1 d2 : ShaderDriver) (s s1 s2 : String)
    (ty1 ty2 : ShaderType) :
    (∀ h, (VertexShader.from_cstr d s).2 = Outcome.ok h →
      h.get_id = d.createdId ∧ h.get_id ≠ 0) ∧
    (∀ h, (TessControlShader.from_cstr d s).2 = Outcome.ok h →
      h.get_id = d.createdId ∧ h.get_id ≠ 0) ∧
    (∀ h, (TessEvaluationShader.from_cstr d s).2 = Outcome.ok h →
      h.get_id = d.createdId ∧ h.get_id ≠ 0) ∧
    (∀ h, (GeometryShader.from_cstr d s).2 = Outcome.ok h →
      h.get_id = d.createdId ∧ h.get_id ≠ 0) ∧
    (∀ h, (FragmentShader.from_cstr d s).2 = Outcome.ok h →
      h.get_id = d.createdId ∧ h.get_id ≠ 0) ∧
    (∀ i1 i2, (create_shader d1 s1 ty1).2 = Outcome.ok i1 →
      (create_shader d2 s2 ty2).2 = Outcome.ok i2 →
      d1.createdId ≠ d2.createdId → i1 ≠ i2) := by
  refine ⟨?_, ?_, ?_, ?_, ?_, ?_⟩
  · intro h hok
    rw [vertex_from_cstr_eq] at hok
    obtain ⟨a, ha, rfl⟩ := mapPair_ok_inv _ _ _ hok
    obtain ⟨h1, h2⟩ := create_shader_ok_id d s ShaderType.Vertex a ha
    exact ⟨h1, by simp [VertexShader.get_id, h1, h2]⟩
  · intro h hok
    rw [tessControl_from_cstr_eq] at hok
    obtain ⟨a, ha, rfl⟩ := mapPair_ok_inv _ _ _ hok
    obtain ⟨h1, h2⟩ := create_shader_ok_id d s ShaderType.TessControl a ha
    exact ⟨h1, by simp [TessControlShader.get_id, h1, h2]⟩
  · intro h hok
    rw [tessEvaluation_from_cstr_eq] at hok
    obtain ⟨a, ha, rfl⟩ := mapPair_ok_inv _ _ _ hok
    obtain ⟨h1, h2⟩ := create_shader_ok_id d s ShaderType.TessEvaluation a ha
    exact ⟨h1, by simp [TessEvaluationShader.get_id, h1, h2]⟩
  · intro h hok
    rw [geometry_from_cstr_eq] at hok
    obtain ⟨a, ha, rfl⟩ := mapPair_ok_inv _ _ _ hok
    obtain ⟨h1, h2⟩ := create_shader_ok_id d s ShaderType.Geometry a ha
    exact ⟨h1, by simp [GeometryShader.get_id, h1, h2]⟩
  · intro h hok
    rw [fragment_from_cstr_eq] at hok
    obtain ⟨a, ha, rfl⟩ := mapPair_ok_inv _ _ _ hok
    obtain ⟨h1, h2⟩ := create_shader_ok_id d s ShaderType.Fragment a ha
    exact ⟨h1, by simp [FragmentShader.get_id, h1, h2]⟩
  · intro i1 i2 hk1 hk2 hne
    obtain ⟨e1, _⟩ := create_shader_ok_id d1 s1 ty1 i1 hk1
    obtain ⟨e2, _⟩ := create_shader_ok_id d2 s2 ty2 i2 hk2
    intro hc
    exact hne (by rw [← e1, ← e2, hc])

/-- A driver behaviour on which compilation succeeds with identifier 1 and
the error flag is clean. -/
def okShaderDriver : ShaderDriver := ShaderDriver.mk 1 1 0 0 0 [] 0

/-- Witness for the amended C6 at a concrete input: on `okShaderDriver`,
`from_cstr` yields the handle with identifier 1, which is non-zero. -/
theorem C6_witness :
    VertexShader.get_id (VertexShader.mk 1) = okShaderDriver.createdId ∧
    VertexShader.get_id (VertexShader.mk 1) ≠ 0 :=
  (C6_live_handle_ids okShaderDriver okShaderDriver okShaderDriver
    "src" "src" "src" ShaderType.Vertex ShaderType.Vertex).1
    (VertexShader.mk 1) (by decide)

/-- A driver behaviour that makes the `assert_eq!` on a failure path fire:
the compile fails, the driver reports no info log, and `glGetError` at the
assert site on that failure path returns a non-clean flag. -/
def abortingShaderDriver : ShaderDriver := ShaderDriver.mk 1 0 0 0 1 [] 0

/-- C7 fails as stated: `assert_eq!(gl::NO_ERROR, gl::GetError())` also
appears on the failure-return paths (shader.rs lines 210 and 225,
program.rs lines 61 and 76), so an abort can occur on a failure-return path
— here a failing compile whose no-log branch reads a non-clean error
flag aborts instead of returning the error. -/
theorem C7_counterexample :
    asGLboolean abortingShaderDriver.compileStatus ≠ glTRUE ∧
    (create_shader abortingShaderDriver "bad" ShaderType.Vertex).2 =
      Outcome.abort := by
  refine ⟨by decide, by decide⟩

/-- C7 amended: every failure of shader compilation and program linking is
returned as an `Err` value, and the only aborting operations are the
defensive error-flag consistency checks — which occur after the successful
status check and also after cleanup on the failure paths.  Concretely: an
abort implies one of the `glGetError` reads at an assert site was
non-clean, and when all those reads are clean no abort occurs. -/
theorem C7_aborts_only_error_flag_checks (d : ShaderDriver) (s : String)
    (ty : ShaderType) (dp : ProgramDriver) (vs : VertexShader)
    (fs : FragmentShader) (gs : Option GeometryShader) :
    ((create_shader d s ty).2 = Outcome.abort →
      d.errAfterSuccess ≠ glNO_ERROR ∨ d.errAfterNoLog ≠ glNO_ERROR ∨
        d.errAfterLog ≠ glNO_ERROR) ∧
    (d.errAfterSuccess = glNO_ERROR → d.errAfterNoLog = glNO_ERROR →
      d.errAfterLog = glNO_ERROR →
      (create_shader d s ty).2 ≠ Outcome.abort) ∧
    ((Program.new dp vs fs gs).2 = Outcome.abort →
      dp.errAfterSuccess ≠ glNO_ERROR ∨ dp.errAfterNoLog ≠ glNO_ERROR ∨
        dp.errAfterLog ≠ glNO_ERROR) ∧
    (dp.errAfterSuccess = glNO_ERROR → dp.errAfterNoLog = glNO_ERROR →
      dp.errAfterLog = glNO_ERROR →
      (Program.new dp vs fs gs).2 ≠ Outcome.abort) := by
  refine ⟨?_, ?_, ?_, ?_⟩
  · intro h
    unfold create_shader at h
    split_ifs at h <;> cases hu : utf8Decode infoLogVecContents <;> simp_all
  · intro h1 h2 h3
    unfold create_shader
    split_ifs <;> cases hu : utf8Decode infoLogVecContents <;> simp_all
  · intro h
    unfold Program.new at h
    split_ifs at h <;> cases hu : utf8Decode infoLogVecContents <;> simp_all
  · intro h1 h2 h3
    unfold Program.new
    split_ifs <;> cases hu : utf8Decode infoLogVecContents <;> simp_all

/-- Witness for the amended C7 at a concrete input: on the clean-flag driver
`okShaderDriver`, `create_shader` does not abort. -/
theorem C7_witness :
    (create_shader okShaderDriver "src" ShaderType.Vertex).2 ≠
      Outcome.abort :=
  (C7_aborts_only_error_flag_checks okShaderDriver "src" ShaderType.Vertex
    (ProgramDriver.mk 1 1 0 0 0 [] 0) (VertexShader.mk 1)
    (FragmentShader.mk 2) none).2.1 rfl rfl rfl

/-- C2: on every run of `create_shader` (and hence of every stage's
`from_cstr`) and of `Program::new` that returns an error after the driver
created an object (non-zero identifier), the delete call for that
identifier is in the trace of calls issued before the return — the object
does not outlive the failed constructor call. -/
theorem C2_failure_cleanup (d : ShaderDriver) (s : String) (ty : ShaderType)
    (dp : ProgramDriver) (vs : VertexShader) (fs : FragmentShader)
    (gs : Option GeometryShader) :
    (Outcome.isErr (create_shader d s ty).2 = true → d.createdId ≠ 0 →
      GLCall.deleteShader d.createdId ∈ (create_shader d s ty).1) ∧
    (Outcome.isErr (Program.new dp vs fs gs).2 = true → dp.createdId ≠ 0 →
      GLCall.deleteProgram dp.createdId ∈ (Program.new dp vs fs gs).1) := by
  constructor
  · intro he hnz
    unfold create_shader at he ⊢
    split_ifs at he ⊢ <;> cases hu : utf8Decode infoLogVecContents <;>
      simp_all [Outcome.isErr, shaderCallsHead]
  · intro he hnz
    unfold Program.new at he ⊢
    split_ifs at he ⊢ <;> cases hu : utf8Decode infoLogVecContents <;>
      simp_all [Outcome.isErr, programCallsHead]

/-- Witness for C2 at a concrete input: a failing compile with no info log
and clean error flag returns an error, and the trace contains the delete of
the created identifier 1. -/
theorem C2_witness :
    GLCall.deleteShader 1 ∈
      (create_shader (ShaderDriver.mk 1 0 0 0 0 [] 0) "bad"
        ShaderType.Vertex).1 :=
  (C2_failure_cleanup (ShaderDriver.mk 1 0 0 0 0 [] 0) "bad"
    ShaderType.Vertex (ProgramDriver.mk 1 1 0 0 0 [] 0) (VertexShader.mk 1)
    (FragmentShader.mk 2) none).1 (by decide) (by decide)

/-- C3: a `Program` value arises only from a successful link — an `ok`
result of `Program::new` carries exactly the driver-issued non-zero
identifier and implies the queried link status was `TRUE`; when the link
status is not `TRUE`, no `Program` value is produced, and (when the
error-flag reads at the assert sites are clean, so the defensive asserts do
not fire) the result is an `Err`. -/
theorem C3_program_only_from_link (d : ProgramDriver) (vs : VertexShader)
    (fs : FragmentShader) (gs : Option GeometryShader) :
    (∀ p, (Program.new d vs fs gs).2 = Outcome.ok p →
      p.id = d.createdId ∧ p.id ≠ 0 ∧ asGLboolean d.linkStatus = glTRUE) ∧
    (asGLboolean d.linkStatus ≠ glTRUE →
      (∀ p, (Program.new d vs fs gs).2 ≠ Outcome.ok p) ∧
      (d.errAfterNoLog = glNO_ERROR → d.errAfterLog = glNO_ERROR →
        Outcome.isErr (Program.new d vs fs gs).2 = true)) := by
  constructor
  · intro p hp
    unfold Program.new at hp
    split_ifs at hp <;> cases hu : utf8Decode infoLogVecContents <;>
      simp_all <;> (obtain rfl := hp; simp_all)
  · intro hl
    constructor
    · intro p hp
      unfold Program.new at hp
      split_ifs at hp <;> cases hu : utf8Decode infoLogVecContents <;>
        simp_all
    · intro h1 h2
      unfold Program.new
      split_ifs <;> cases hu : utf8Decode infoLogVecContents <;>
        simp_all [Outcome.isErr]

/-- Witness for C3 at a concrete input: a successful link with identifier 3
yields the `Program` with identifier 3, non-zero, with link status `TRUE`. -/
theorem C3_witness :
    (Program.mk 3).id = (ProgramDriver.mk 3 1 0 0 0 [] 0).createdId ∧
    (Program.mk 3).id ≠ 0 ∧
    asGLboolean (ProgramDriver.mk 3 1 0 0 0 [] 0).linkStatus = glTRUE :=
  (C3_program_only_from_link (ProgramDriver.mk 3 1 0 0 0 [] 0)
    (VertexShader.mk 1) (FragmentShader.mk 2) none).1 (Program.mk 3)
    (by decide)

/-- C5: whenever the driver produced a program object, the trace of
`Program::new` starts — on success and on every failure alike — with the
attach calls for the vertex, fragment and (when supplied) geometry shader
identifiers, then the link call, then the detach calls for exactly those
identifiers, before anything else; so every attached shader is detached
after the link on both outcomes. -/
theorem C5_detach_after_link (d : ProgramDriver) (vs : VertexShader)
    (fs : FragmentShader) (gs : Option GeometryShader)
    (h : d.createdId ≠ 0) :
    ∃ t, (Program.new d vs fs gs).1 =
      [GLCall.getError, GLCall.createProgram,
       GLCall.attachShader d.createdId vs.id,
       GLCall.attachShader d.createdId fs.id] ++ optAttach d.createdId gs ++
      [GLCall.linkProgram d.createdId,
       GLCall.detachShader d.createdId vs.id,
       GLCall.detachShader d.createdId fs.id] ++ optDetach d.createdId gs ++
      [GLCall.getProgramiv d.createdId glLINK_STATUS] ++ t := by
  unfold Program.new
  rw [if_neg h]
  split_ifs <;> first
  | (refine ⟨[GLCall.getError], ?_⟩
     simp [programCallsHead]
     done)
  | (refine ⟨[GLCall.getProgramiv d.createdId glINFO_LOG_LENGTH,
       GLCall.deleteProgram d.createdId, GLCall.getError], ?_⟩
     simp [programCallsHead]
     done)
  | (refine ⟨[GLCall.getProgramiv d.createdId glINFO_LOG_LENGTH,
       GLCall.getProgramInfoLog d.createdId (d.infoLogLength - 1),
       GLCall.deleteProgram d.createdId, GLCall.getError], ?_⟩
     simp [programCallsHead]
     done)

/-- Witness for C5 at a concrete input: the link-failure trace with
geometry shader supplied begins with attach, link, detach in that order. -/
theorem C5_witness :
    ∃ t, (Program.new (ProgramDriver.mk 4 0 0 0 0 [] 0) (VertexShader.mk 1)
      (FragmentShader.mk 2) (some (GeometryShader.mk 3))).1 =
      [GLCall.getError, GLCall.createProgram, GLCall.attachShader 4 1,
       GLCall.attachShader 4 2] ++ optAttach 4 (some (GeometryShader.mk 3)) ++
      [GLCall.linkProgram 4, GLCall.detachShader 4 1,
       GLCall.detachShader 4 2] ++ optDetach 4 (some (GeometryShader.mk 3)) ++
      [GLCall.getProgramiv 4 glLINK_STATUS] ++ t :=
  C5_detach_after_link (ProgramDriver.mk 4 0 0 0 0 [] 0) (VertexShader.mk 1)
    (FragmentShader.mk 2) (some (GeometryShader.mk 3)) (by decide)

/-- C4: each of the six uniform setters satisfies `SetterContract`: resolve
the name to a location first; on the `-1` sentinel return the invalid-name
error with no upload call issued; otherwise clear the error flag, issue the
type-specific upload, re-read the flag, and return the invalid-value error
exactly when the flag is non-clean (`Ok(())` exactly when it is clean). -/
theorem C4_uniform_setters (d : UniformDriver) (p : Program) (name : String)
    (dbgName : String → String) (dbgF32 : F32 → String)
    (dbgArr2 : F32 × F32 → String) (dbgArr3 : F32 × F32 × F32 → String)
    (dbgArr4 : F32 × F32 × F32 × F32 → String) (dbgMat : Mat4 → String)
    (v1 : F32) (vi : Int) (v2 : F32 × F32) (v3 : F32 × F32 × F32)
    (v4 : F32 × F32 × F32 × F32) (vm : Mat4) :
    SetterContract d p name ("Invalid uniform name: " ++ dbgName name)
      ("Invalid uniform value: " ++ dbgF32 v1)
      (GLCall.uniform1f d.location v1)
      (p.set_1f d dbgName dbgF32 name v1) ∧
    SetterContract d p name ("Invalid uniform name: " ++ dbgName name)
      ("Invalid uniform value: " ++ toString vi)
      (GLCall.uniform1i d.location vi)
      (p.set_1i d dbgName name vi) ∧
    SetterContract d p name ("Invalid uniform name: " ++ dbgName name)
      ("Invalid uniform value: " ++ dbgArr2 v2)
      (GLCall.uniform2f d.location v2.1 v2.2)
      (p.set_2f d dbgName dbgArr2 name v2) ∧
    SetterContract d p name ("Invalid uniform name: " ++ dbgName name)
      ("Invalid uniform value: " ++ dbgArr3 v3)
      (GLCall.uniform3f d.location v3.1 v3.2.1 v3.2.2)
      (p.set_3f d dbgName dbgArr3 name v3) ∧
    SetterContract d p name ("Invalid uniform name: " ++ dbgName name)
      ("Invalid uniform value: " ++ dbgArr4 v4)
      (GLCall.uniform4f d.location v4.1 v4.2.1 v4.2.2.1 v4.2.2.2)
      (p.set_4f d dbgName dbgArr4 name v4) ∧
    SetterContract d p name ("Invalid uniform name: " ++ dbgName name)
      ("Invalid uniform value: " ++ dbgMat vm)
      (GLCall.uniformMatrix4fv d.location 1 glFALSE vm)
      (p.set_matrix4f d dbgName dbgMat name vm) := by
  refine ⟨?_, ?_, ?_, ?_, ?_, ?_⟩ <;>
  · simp only [SetterContract, Program.set_1f, Program.set_1i,
      Program.set_2f, Program.set_3f, Program.set_4f, Program.set_matrix4f,
      Program.get_location]
    by_cases hl : d.location = -1 <;>
      by_cases he : d.errAfter = glNO_ERROR <;>
        simp_all [isUpload]

/-- Witness for C4 at a concrete input: with a resolved location 2 and a
clean error flag after the upload, `set_1f` succeeds. -/
theorem C4_witness :
    ((Program.mk 1).set_1f (UniformDriver.mk 2 0) (fun s => s)
      (fun _ => "0.5") "u" (F32.mk 5)).2 = Outcome.ok () :=
  ((C4_uniform_setters (UniformDriver.mk 2 0) (Program.mk 1) "u"
    (fun s => s) (fun _ => "0.5") (fun _ => "") (fun _ => "") (fun _ => "")
    (fun _ => "") (F32.mk 5) 0 (F32.mk 0, F32.mk 0)
    (F32.mk 0, F32.mk 0, F32.mk 0) (F32.mk 0, F32.mk 0, F32.mk 0, F32.mk 0)
    (Mat4.mk [])).1.2 (by decide)).2.1.mpr rfl
